import Mathlib

/-!
Verification of the recipe-chatbot backend core (`src/backend/utils.py`).

The whole core is the function `get_agent_response`, which normalizes a chat
transcript so that it starts with a system turn, sends it to an external
completion capability, and appends the (whitespace-stripped) assistant reply.

The embedding is shallow and executable:
* a `Turn` is the `{"role": ..., "content": ...}` dict of the source;
* the external `litellm.completion` call is a function parameter
  `complete : String → List Turn → Except String Completion`, mirroring the
  collaborator contract (model identifier and message list in; a completion
  with a list of choices out, or a provider error detail);
* the process environment is a parameter `env : String → Option String`;
* exceptions of the Python code are modelled with `Except`; every failure of
  the operation is an `AgentError.completionError` carrying a detail string.
-/

/-- One chat message: the `{"role": str, "content": str}` dict of the source. -/
structure Turn where
  role : String
  content : String
deriving Repr, DecidableEq

/-- The `message` field of a completion choice.  Its `content` is optional:
the provider may return a message without usable text content. -/
structure CompletionMessage where
  content : Option String
deriving Repr, DecidableEq

/-- One element of the `choices` array of a completion response. -/
structure Choice where
  message : CompletionMessage
deriving Repr, DecidableEq

/-- The completion response shape consumed by the core:
`completion["choices"][0]["message"]["content"]`. -/
structure Completion where
  choices : List Choice
deriving Repr, DecidableEq

/-- Errors of the operation.  The spec groups every failure of the completion
call or of reply extraction under `CompletionError` with a detail string. -/
inductive AgentError where
  | completionError (detail : String)
deriving Repr, DecidableEq

def SYSTEM_PROMPT : String :=
  "\nYou are a friendly culinary assistant skilled at helping normal folks \ncreate interesting meals at home. Unless otherwise specified, assume your\nusers are in a large city in the United States.\n\n## Content\n\nAlways provide ingredient lists with precise measurements in the correct units for\ntheir location. For example, Americans use imperial measurements while the French\nwould use metric units.\n\nAlways use culturally appropriate measures. For example, Americans measure flour by\nvolume while Europeans use weight.\n\nNever use offensive or derogatory language.\n\nIf a user asks for a recipe that is unsafe, unethical, or promotes harmful activities, politely.\n\nPresent only one recipe at a time.\n\nIf the user doesn\x27t specify what ingredients they have on-hand, assume they are\nwilling to shop on their way home. If they live in a large city, they most likely have\naccess to semi-exotic spices and \"ethnic\" ingredients.\n\nBe descriptive in the steps of the recipe, so it is easy to follow.\n\nYou MUST suggest a complete recipe, do not require a back-and-forth before\nfully answering the user.\n\nAfter you list your recipe, provide suggestions for tweaks or directions for alternatives\nfor people dissatisfied with the recipe. For example, if a recipe includes a long baking\nsession you might offer to provide a less time-intensive recipe, or if suggesting exotic\ningredients mention what might be skipped or substituted or similar recipes with more\ntraditional ingredients.\n\nTake a free hand in the recipes you suggest: some night you just want to roast some\npotatoes, while other times you might want pad kra pow. Every recipe must be reasonable for\na single person to prepare.\n\nMention the serving size in the recipe. If not specified, assume 2 people.\n\n## Formatting\n\nStructure all recipes as Markdown.\n\nBegin every recipe response with the recipe name as a Level 2 Heading (e.g., \x60## Amazing Blueberry Muffins\x60)\n\nImmediately follow with a brief, enticing description of the dish (1-3 sentences)\n\nNext, include a section titled \x60### Ingredients\x60. List all ingredients using a Markdown unordered list (bullet points).\n\nFollowing ingredients, include a section titled \x60### Instructions\x60. Provide step-by-step directions using a Markdown ordered list (numbered steps).\n\nOptionally, if relevant, add a \x60### Notes\x60, \x60### Tips\x60, or \x60### Variations\x60 section for extra advice or alternatives.\n\n**Example of desired Markdown structure for a recipe response**:\n\n\x60\x60\x60markdown\n## Golden Pan-Fried Salmon\n\nA quick and delicious way to prepare salmon with a crispy skin and moist interior, perfect for a weeknight dinner.\n\n### Ingredients\n* 2 salmon fillets (approx. 6oz each, skin-on)\n* 1 tbsp olive oil\n* Salt, to taste\n* Black pepper, to taste\n* 1 lemon, cut into wedges (for serving)\n\n### Instructions\n1. Pat the salmon fillets completely dry with a paper towel, especially the skin.\n2. Season both sides of the salmon with salt and pepper.\n3. Heat olive oil in a non-stick skillet over medium-high heat until shimmering.\n4. Place salmon fillets skin-side down in the hot pan.\n5. Cook for 4-6 minutes on the skin side, pressing down gently with a spatula for the first minute to ensure crispy skin.\n6. Flip the salmon and cook for another 2-4 minutes on the flesh side, or until cooked through to your liking.\n7. Serve immediately with lemon wedges.\n\n### Tips\n* For extra flavor, add a clove of garlic (smashed) and a sprig of rosemary to the pan while cooking.\n* Ensure the pan is hot before adding the salmon for the best sear.\n\x60\x60\x60\n"

/-- `MODEL_NAME = os.environ.get("MODEL_NAME", "gpt-4o-mini")`, read from the
process configuration `env`. -/
def MODEL_NAME (env : String → Option String) : String :=
  (env "MODEL_NAME").getD "gpt-4o-mini"

/-- The default system turn `{"role": "system", "content": SYSTEM_PROMPT}`
prepended by `get_agent_response` when the transcript does not start with a
system turn. -/
def defaultSystemTurn : Turn :=
  { role := "system", content := SYSTEM_PROMPT }

/-- The characters removed by Python's `str.strip()` (the ASCII whitespace
set; the prompt and replies handled here are ASCII text). -/
def isPyWhitespace (c : Char) : Bool :=
  c = ' ' || c = '\t' || c = '\n' || c = '\r' || c = '\x0b' || c = '\x0c'

/-- Python's `str.strip()`: remove leading and trailing whitespace. -/
def pyStrip (s : String) : String :=
  String.mk (((s.toList.dropWhile isPyWhitespace).reverse.dropWhile
    isPyWhitespace).reverse)

/-- `messages and messages[0]["role"] == "system"`: the condition (negated in
the source) guarding the prepend at lines 129-130 of `utils.py`. -/
def startsWithSystem : List Turn → Bool
  | [] => false
  | first :: _ => first.role == "system"

/-- Lines 128-132 of `utils.py`: the computation of `current_messages`.
`if not messages or messages[0]["role"] != "system":` prepend the default
system turn, `else` keep `messages` unchanged. -/
def systemNormalize (messages : List Turn) : List Turn :=
  if !startsWithSystem messages then
    defaultSystemTurn :: messages
  else
    messages

/-- Lines 139-142 of `utils.py`:
`completion["choices"][0]["message"]["content"].strip()`.
An empty `choices` array or a missing content field makes the Python
expression raise; here that is the `completionError` case. -/
def extractAssistantReply (completion : Completion) : Except AgentError String :=
  match completion.choices with
  | [] => .error (.completionError "completion returned no choices")
  | choice :: _ =>
    match choice.message.content with
    | none => .error (.completionError "completion message has no content")
    | some raw => .ok (pyStrip raw)

/-- The part of `get_agent_response` after the completion call: turn the
call's outcome into the operation's result, appending the assistant turn on
success (lines 134-146 of `utils.py`). -/
def handleCompletion (current_messages : List Turn)
    (result : Except String Completion) : Except AgentError (List Turn) :=
  match result with
  | .error detail => .error (.completionError detail)
  | .ok completion =>
    match extractAssistantReply completion with
    | .error e => .error e
    | .ok reply =>
      .ok (current_messages ++ [{ role := "assistant", content := reply }])

/-- `get_agent_response(messages)` of `utils.py`, lines 109-146.  The external
collaborators are explicit parameters: `env` is the process environment and
`complete` is `litellm.completion`.  The transcript sent to `complete` is
`systemNormalize messages`, and the model identifier is `MODEL_NAME env`. -/
def get_agent_response (env : String → Option String)
    (complete : String → List Turn → Except String Completion)
    (messages : List Turn) : Except AgentError (List Turn) :=
  let current_messages := systemNormalize messages
  handleCompletion current_messages
    (complete (MODEL_NAME env) current_messages)

/-! ## Concrete collaborators used by the witnesses -/

/-- An environment with no variables set. -/
def emptyEnv : String → Option String := fun _ => none

/-- A mock completion capability that always succeeds with one choice whose
message content is `text`. -/
def mockComplete (text : String) :
    String → List Turn → Except String Completion :=
  fun _ _ => .ok { choices := [{ message := { content := some text } }] }

/-! ## Helper lemmas -/

/-- The normalized transcript always starts with a turn of role "system". -/
theorem startsWithSystem_systemNormalize (T : List Turn) :
    startsWithSystem (systemNormalize T) = true := by
  cases T with
  | nil => simp [systemNormalize, startsWithSystem, defaultSystemTurn]
  | cons a t =>
    by_cases h : a.role = "system" <;>
      simp [systemNormalize, startsWithSystem, defaultSystemTurn, h]

/-- Normalization either keeps the transcript or prepends the default turn. -/
theorem systemNormalize_shape (T : List Turn) :
    systemNormalize T = T ∨ systemNormalize T = defaultSystemTurn :: T := by
  unfold systemNormalize
  split
  · exact Or.inr rfl
  · exact Or.inl rfl

/-- A transcript already starting with a system turn is left unchanged. -/
theorem systemNormalize_of_startsWithSystem (L : List Turn)
    (h : startsWithSystem L = true) : systemNormalize L = L := by
  simp [systemNormalize, h]

/-- Shape of every successful result: the normalized input followed by exactly
one assistant turn. -/
theorem respond_ok_shape (env : String → Option String)
    (complete : String → List Turn → Except String Completion)
    (T out : List Turn) (h : get_agent_response env complete T = .ok out) :
    ∃ c, out = systemNormalize T ++ [Turn.mk "assistant" c] := by
  have h2 : handleCompletion (systemNormalize T)
      (complete (MODEL_NAME env) (systemNormalize T)) = .ok out := h
  cases hc : complete (MODEL_NAME env) (systemNormalize T) with
  | error e => rw [hc] at h2; simp [handleCompletion] at h2
  | ok completion =>
    rw [hc] at h2
    cases he : extractAssistantReply completion with
    | error e => simp [handleCompletion, he] at h2
    | ok reply =>
      simp [handleCompletion, he] at h2
      exact ⟨reply, h2.symm⟩

/-! ## Claims -/

/-- C1: for every transcript T that is empty or whose first turn's role is not
"system", respond(T) sends to the completion capability the sequence whose
first element is the default system Turn (the fixed instruction text)
followed by all turns of T in their original order. -/
theorem C1_prepends_default_system (env : String → Option String)
    (complete : String → List Turn → Except String Completion) (T : List Turn)
    (h : T = [] ∨ ∃ first rest, T = first :: rest ∧ first.role ≠ "system") :
    systemNormalize T = defaultSystemTurn :: T ∧
    get_agent_response env complete T =
      handleCompletion (defaultSystemTurn :: T)
        (complete (MODEL_NAME env) (defaultSystemTurn :: T)) := by
  have hn : systemNormalize T = defaultSystemTurn :: T := by
    rcases h with h | ⟨first, rest, hT, hrole⟩
    · subst h; rfl
    · subst hT; simp [systemNormalize, startsWithSystem, hrole]
  refine ⟨hn, ?_⟩
  show handleCompletion (systemNormalize T)
      (complete (MODEL_NAME env) (systemNormalize T)) = _
  rw [hn]

/-- Witness for C1 at the concrete transcript [{user, "hi"}] with an offline
completion capability. -/
theorem C1_witness :
    systemNormalize [Turn.mk "user" "hi"] =
      defaultSystemTurn :: [Turn.mk "user" "hi"] ∧
    get_agent_response emptyEnv (fun _ _ => Except.error "offline")
        [Turn.mk "user" "hi"] =
      handleCompletion (defaultSystemTurn :: [Turn.mk "user" "hi"])
        (Except.error "offline") :=
  C1_prepends_default_system emptyEnv (fun _ _ => Except.error "offline")
    [Turn.mk "user" "hi"]
    (Or.inr ⟨Turn.mk "user" "hi", [], rfl, by decide⟩)

/-- C2: for every non-empty transcript T whose first turn has role "system",
respond(T) sends T unchanged as the basis to the completion capability; no
second (duplicate) system Turn is prepended. -/
theorem C2_keeps_existing_system (env : String → Option String)
    (complete : String → List Turn → Except String Completion)
    (T : List Turn) (first : Turn) (rest : List Turn)
    (hT : T = first :: rest) (hrole : first.role = "system") :
    systemNormalize T = T ∧
    get_agent_response env complete T =
      handleCompletion T (complete (MODEL_NAME env) T) := by
  have hn : systemNormalize T = T := by
    subst hT; simp [systemNormalize, startsWithSystem, hrole]
  refine ⟨hn, ?_⟩
  show handleCompletion (systemNormalize T)
      (complete (MODEL_NAME env) (systemNormalize T)) = _
  rw [hn]

/-- Witness for C2 at T = [{system, "custom instructions"}, {user, "hi"}]. -/
theorem C2_witness :
    systemNormalize [Turn.mk "system" "custom instructions", Turn.mk "user" "hi"] =
      [Turn.mk "system" "custom instructions", Turn.mk "user" "hi"] ∧
    get_agent_response emptyEnv (fun _ _ => Except.error "offline")
        [Turn.mk "system" "custom instructions", Turn.mk "user" "hi"] =
      handleCompletion
        [Turn.mk "system" "custom instructions", Turn.mk "user" "hi"]
        (Except.error "offline") :=
  C2_keeps_existing_system emptyEnv (fun _ _ => Except.error "offline")
    [Turn.mk "system" "custom instructions", Turn.mk "user" "hi"]
    (Turn.mk "system" "custom instructions") [Turn.mk "user" "hi"] rfl rfl

/-- C3: for every transcript T on which the completion call succeeds, the
output of respond(T) equals the system-normalized input sequence followed by
exactly one new Turn whose role is "assistant"; no other turn is added,
removed, or reordered. -/
theorem C3_output_appends_one_assistant (env : String → Option String)
    (complete : String → List Turn → Except String Completion)
    (T out : List Turn) (h : get_agent_response env complete T = .ok out) :
    ∃ c, out = systemNormalize T ++ [Turn.mk "assistant" c] :=
  respond_ok_shape env complete T out h

/-- Witness for C3: T = [] with a mock completion returning " Hello! ". -/
theorem C3_witness :
    ∃ c, [defaultSystemTurn, Turn.mk "assistant" "Hello!"] =
      systemNormalize [] ++ [Turn.mk "assistant" c] :=
  C3_output_appends_one_assistant emptyEnv (mockComplete " Hello! ") []
    [defaultSystemTurn, Turn.mk "assistant" "Hello!"] (by rfl)

/-- C4: for every transcript T and every raw completion text c returned by the
completion capability, the assistant Turn appended by respond(T) has content
equal to c with leading and trailing whitespace removed. -/
theorem C4_reply_is_stripped (env : String → Option String)
    (complete : String → List Turn → Except String Completion)
    (T : List Turn) (raw : String) (rest : List Choice)
    (hc : complete (MODEL_NAME env) (systemNormalize T) =
      .ok { choices := { message := { content := some raw } } :: rest }) :
    get_agent_response env complete T =
      .ok (systemNormalize T ++ [Turn.mk "assistant" (pyStrip raw)]) := by
  show handleCompletion (systemNormalize T)
      (complete (MODEL_NAME env) (systemNormalize T)) = _
  rw [hc]
  rfl

/-- Witness for C4, also the scenario of the claim: T = [] and raw completion
" Hello! " give output [system-default, {assistant, "Hello!"}]. -/
theorem C4_witness :
    get_agent_response emptyEnv (mockComplete " Hello! ") [] =
      .ok [defaultSystemTurn, Turn.mk "assistant" "Hello!"] :=
  (C4_reply_is_stripped emptyEnv (mockComplete " Hello! ") [] " Hello! " []
    rfl).trans (by rfl)

/-- C5: for every transcript T, if the underlying completion call fails, the
operation fails with a CompletionError carrying the provider's error detail;
the single call is made with no retry, and no transcript is returned (the
caller's transcript, a pure value here, is untouched). -/
theorem C5_propagates_provider_error (env : String → Option String)
    (complete : String → List Turn → Except String Completion)
    (T : List Turn) (e : String)
    (h : complete (MODEL_NAME env) (systemNormalize T) = .error e) :
    get_agent_response env complete T =
      .error (AgentError.completionError e) := by
  show handleCompletion (systemNormalize T)
      (complete (MODEL_NAME env) (systemNormalize T)) = _
  rw [h]
  rfl

/-- Witness for C5: a provider error "rate limited" surfaces as a
CompletionError with the same detail. -/
theorem C5_witness :
    get_agent_response emptyEnv (fun _ _ => Except.error "rate limited")
        [Turn.mk "user" "hi"] =
      .error (AgentError.completionError "rate limited") :=
  C5_propagates_provider_error emptyEnv (fun _ _ => Except.error "rate limited")
    [Turn.mk "user" "hi"] "rate limited" rfl

/-- C6 counterexample: with a completion whose single choice has content ""
(an empty completion text), the operation does not fail; it returns the
normalized transcript with an appended assistant turn of empty content. -/
theorem C6_counterexample :
    get_agent_response emptyEnv (mockComplete "") [] =
      .ok [defaultSystemTurn, Turn.mk "assistant" ""] ∧
    ∀ e : AgentError, get_agent_response emptyEnv (mockComplete "") [] ≠
      Except.error e := by
  have hok : get_agent_response emptyEnv (mockComplete "") [] =
      .ok [defaultSystemTurn, Turn.mk "assistant" ""] := by rfl
  exact ⟨hok, fun e h => Except.noConfusion (hok.symm.trans h)⟩

/-- C6 (amended): for every transcript T, if the completion capability returns
a malformed result — no choices, or a first choice with a missing message
content field — respond(T) fails with a CompletionError rather than returning
a result.  (An empty-string content is not rejected: it yields a successful
result whose assistant turn has empty content.) -/
theorem C6_rejects_malformed_completion (env : String → Option String)
    (complete : String → List Turn → Except String Completion)
    (T : List Turn) (completion : Completion)
    (hc : complete (MODEL_NAME env) (systemNormalize T) = .ok completion)
    (h : completion.choices = [] ∨
      ∃ choice rest, completion.choices = choice :: rest ∧
        choice.message.content = none) :
    ∃ d, get_agent_response env complete T =
      .error (AgentError.completionError d) := by
  have h2 : get_agent_response env complete T =
      handleCompletion (systemNormalize T) (.ok completion) := by
    show handleCompletion (systemNormalize T)
        (complete (MODEL_NAME env) (systemNormalize T)) = _
    rw [hc]
  rcases h with h | ⟨choice, rest, hch, hnone⟩
  · refine ⟨"completion returned no choices", ?_⟩
    rw [h2]
    simp [handleCompletion, extractAssistantReply, h]
  · refine ⟨"completion message has no content", ?_⟩
    rw [h2]
    simp [handleCompletion, extractAssistantReply, hch, hnone]

/-- Witness for the amended C6: a completion with an empty choices array is
rejected with a CompletionError. -/
theorem C6_witness :
    ∃ d, get_agent_response emptyEnv
        (fun _ _ => Except.ok { choices := [] }) [] =
      .error (AgentError.completionError d) :=
  C6_rejects_malformed_completion emptyEnv
    (fun _ _ => Except.ok { choices := [] }) [] { choices := [] } rfl
    (Or.inl rfl)

/-- C7: the model identifier passed to the completion capability is read from
process configuration: it equals the environment's MODEL_NAME value when set
and "gpt-4o-mini" when unset, and every call of the operation hands exactly
`MODEL_NAME env` to the completion capability. -/
theorem C7_model_identifier_from_env (env env0 : String → Option String)
    (complete : String → List Turn → Except String Completion)
    (T : List Turn) (m : String)
    (hm : env "MODEL_NAME" = some m) (h0 : env0 "MODEL_NAME" = none) :
    MODEL_NAME env = m ∧ MODEL_NAME env0 = "gpt-4o-mini" ∧
    get_agent_response env complete T =
      handleCompletion (systemNormalize T)
        (complete (MODEL_NAME env) (systemNormalize T)) :=
  ⟨by simp [hm, MODEL_NAME], by simp [h0, MODEL_NAME], rfl⟩

/-- Witness for C7 with MODEL_NAME set to "my-model" in one environment and
unset in the other. -/
theorem C7_witness :
    MODEL_NAME (fun k => if k = "MODEL_NAME" then some "my-model" else none) =
      "my-model" ∧
    MODEL_NAME emptyEnv = "gpt-4o-mini" ∧
    get_agent_response
        (fun k => if k = "MODEL_NAME" then some "my-model" else none)
        (fun _ _ => Except.error "offline") [] =
      handleCompletion (systemNormalize [])
        ((fun _ _ => Except.error "offline" :
            String → List Turn → Except String Completion)
          (MODEL_NAME (fun k => if k = "MODEL_NAME" then some "my-model" else none))
          (systemNormalize [])) :=
  C7_model_identifier_from_env
    (fun k => if k = "MODEL_NAME" then some "my-model" else none) emptyEnv
    (fun _ _ => Except.error "offline") [] "my-model" (by simp) rfl

/-- C8: the operation never mutates the caller's transcript and has no side
channel besides the single outbound completion call: its result depends only
on the completion capability's answer at the one sent request, and every
successful result is a newly built list containing the original turns
unchanged and in order, plus one appended assistant turn. -/
theorem C8_pure_single_call (env : String → Option String)
    (complete complete2 : String → List Turn → Except String Completion)
    (T : List Turn)
    (h : complete (MODEL_NAME env) (systemNormalize T) =
      complete2 (MODEL_NAME env) (systemNormalize T)) :
    get_agent_response env complete T = get_agent_response env complete2 T ∧
    ∀ out, get_agent_response env complete T = Except.ok out →
      ∃ front c, (front = [] ∨ front = [defaultSystemTurn]) ∧
        out = front ++ T ++ [Turn.mk "assistant" c] := by
  constructor
  · show handleCompletion (systemNormalize T)
        (complete (MODEL_NAME env) (systemNormalize T)) =
      handleCompletion (systemNormalize T)
        (complete2 (MODEL_NAME env) (systemNormalize T))
    rw [h]
  · intro out hout
    obtain ⟨c, hc⟩ := respond_ok_shape env complete T out hout
    rcases systemNormalize_shape T with hN | hN
    · exact ⟨[], c, Or.inl rfl, by rw [hc, hN]; simp⟩
    · exact ⟨[defaultSystemTurn], c, Or.inr rfl, by rw [hc, hN]; simp⟩

/-- Witness for C8: two definitionally equal mock capabilities give the same
result, and the successful output at T = [] decomposes as required. -/
theorem C8_witness :
    get_agent_response emptyEnv (mockComplete "ok") [] =
      get_agent_response emptyEnv (mockComplete "ok") [] ∧
    ∃ front c, (front = [] ∨ front = [defaultSystemTurn]) ∧
      [defaultSystemTurn, Turn.mk "assistant" "ok"] =
        front ++ [] ++ [Turn.mk "assistant" c] :=
  ⟨(C8_pure_single_call emptyEnv (mockComplete "ok") (mockComplete "ok")
      [] rfl).1,
    (C8_pure_single_call emptyEnv (mockComplete "ok") (mockComplete "ok")
      [] rfl).2 [defaultSystemTurn, Turn.mk "assistant" "ok"] (by rfl)⟩

/-- C9: system-normalization is idempotent — the normalized basis begins with
a system turn, normalizing it again returns it unchanged — and feeding the
output of a successful respond(T) back into respond never prepends a second
default system turn. -/
theorem C9_normalize_idempotent (env : String → Option String)
    (complete : String → List Turn → Except String Completion)
    (T out : List Turn) (h : get_agent_response env complete T = .ok out) :
    startsWithSystem (systemNormalize T) = true ∧
    systemNormalize (systemNormalize T) = systemNormalize T ∧
    systemNormalize out = out := by
  have hs := startsWithSystem_systemNormalize T
  refine ⟨hs, systemNormalize_of_startsWithSystem _ hs, ?_⟩
  obtain ⟨c, hc⟩ := respond_ok_shape env complete T out h
  cases hN : systemNormalize T with
  | nil => rw [hN] at hs; exact absurd hs (by simp [startsWithSystem])
  | cons a l =>
    rw [hN] at hs hc
    have : startsWithSystem out = true := by
      rw [hc]
      simpa [startsWithSystem] using hs
    exact systemNormalize_of_startsWithSystem out this

/-- Witness for C9 at T = [{user, "hi"}] with a successful mock completion. -/
theorem C9_witness :
    startsWithSystem (systemNormalize [Turn.mk "user" "hi"]) = true ∧
    systemNormalize (systemNormalize [Turn.mk "user" "hi"]) =
      systemNormalize [Turn.mk "user" "hi"] ∧
    systemNormalize
        [defaultSystemTurn, Turn.mk "user" "hi", Turn.mk "assistant" "ok"] =
      [defaultSystemTurn, Turn.mk "user" "hi", Turn.mk "assistant" "ok"] :=
  C9_normalize_idempotent emptyEnv (mockComplete "ok") [Turn.mk "user" "hi"]
    [defaultSystemTurn, Turn.mk "user" "hi", Turn.mk "assistant" "ok"] (by rfl)

/-- C10: the system-turn check inspects only the first element — a non-empty
transcript whose first turn is not a system turn still gets the default
system turn prepended even when a system turn occurs later, so the sequence
sent to the model contains at least two turns with role "system". -/
theorem C10_checks_first_element_only (T : List Turn) (first t : Turn)
    (rest : List Turn) (hT : T = first :: rest)
    (hfirst : first.role ≠ "system") (ht : t ∈ T) (hrole : t.role = "system") :
    systemNormalize T = defaultSystemTurn :: T ∧
    2 ≤ (systemNormalize T).countP (fun u => u.role == "system") := by
  have hn : systemNormalize T = defaultSystemTurn :: T := by
    subst hT; simp [systemNormalize, startsWithSystem, hfirst]
  refine ⟨hn, ?_⟩
  rw [hn, List.countP_cons_of_pos _ _ (by rfl)]
  have h1 : 0 < T.countP (fun u => u.role == "system") :=
    List.countP_pos_iff.mpr ⟨t, ht, by simp [hrole]⟩
  omega

/-- Witness for C10 at T = [{user, "hi"}, {system, "late instructions"}]: the
sent sequence holds two system turns. -/
theorem C10_witness :
    systemNormalize [Turn.mk "user" "hi", Turn.mk "system" "late instructions"] =
      defaultSystemTurn ::
        [Turn.mk "user" "hi", Turn.mk "system" "late instructions"] ∧
    2 ≤ (systemNormalize
        [Turn.mk "user" "hi", Turn.mk "system" "late instructions"]).countP
      (fun u => u.role == "system") :=
  C10_checks_first_element_only
    [Turn.mk "user" "hi", Turn.mk "system" "late instructions"]
    (Turn.mk "user" "hi") (Turn.mk "system" "late instructions")
    [Turn.mk "system" "late instructions"] rfl (by decide)
    (by simp) rfl
